import Mathlib

/-!
libresourceqt: resource-policy client and demo player.

A shallow embedding of

* `demo/player/playerwidget.cpp` / `playerwidget.h` (the policy-aware demo player),
* the signal interface declared in `libresourceqt/src/resource-engine.h`,
* the resource-negotiation engine and resource set, whose implementation files are
  not among the sources and are therefore modelled from the specification.

Qt signals, calls on the resource set and calls on the streamer are recorded, in
program order, in an explicit trace; object state is passed explicitly.
-/

namespace ResourcePolicy

/-- Resource types, as enumerated by the `switch` in
`BenchmarkResourceSet::resourceFromType` (benchmark-resource-set.cpp:32-61). -/
inductive ResourceType
  | AudioPlaybackType
  | AudioRecorderType
  | VideoPlaybackType
  | VideoRecorderType
  | VibraType
  | LedsType
  | BacklightType
  | SystemButtonType
  | LockButtonType
  | ScaleButtonType
  | SnapButtonType
  | LensCoverType
  | HeadsetButtonsType
  deriving DecidableEq, Repr

end ResourcePolicy

/-! ## The demo player (`demo/player`) -/

/-- Values returned by `Streamer::state()` (streamer.cpp:224-229). -/
inductive Streamer.State
  | PlayingState
  | PausedState
  | StoppedState
  deriving DecidableEq, Repr

/-- The member functions of `Streamer` that `PlayerWidget` calls, over an abstract
streamer state `σ`.  The streamer drives a GStreamer pipeline (streamer.cpp), which is
outside the program; `streamer.h` (and with it `Streamer::pause`) is not among the
sources.  Each operation is taken to return to its caller: the mutex-protected bodies
of streamer.cpp and the pipeline behind them are not modelled.  Every statement about
`PlayerWidget` below holds for an arbitrary implementation of these operations. -/
structure StreamerOps (σ : Type) where
  /-- `Streamer::play()` -/
  play : σ → σ
  /-- `Streamer::pause()` -/
  pause : σ → σ
  /-- `Streamer::stop()` -/
  stop : σ → σ
  /-- `Streamer::setPosition(quint64)` -/
  setPosition : Nat → σ → σ
  /-- `Streamer::setLocation(const QString)` -/
  setLocation : String → σ → σ
  /-- `Streamer::state()` -/
  state : σ → Streamer.State
  /-- `Streamer::duration()` -/
  duration : σ → Nat

/-- A small stand-in streamer used to evaluate the player on concrete inputs: its state
is just the value `state()` reports; `play`, `pause`, `stop` move it to the
corresponding state and the duration is a fixed 1000 ms. -/
def Streamer.simple : StreamerOps Streamer.State where
  play := fun _ => Streamer.State.PlayingState
  pause := fun _ => Streamer.State.PausedState
  stop := fun _ => Streamer.State.StoppedState
  setPosition := fun _ s => s
  setLocation := fun _ s => s
  state := fun s => s
  duration := fun _ => 1000

/-- Everything `PlayerWidget` does to the outside world: calls on its `resourceSet`,
calls on its `streamer`, and the Qt signals it emits. -/
inductive PlayerWidget.Effect
  /-- `resourceSet->acquire()` -/
  | resourceSetAcquire
  /-- `resourceSet->release()` -/
  | resourceSetRelease
  /-- `streamer->play()` -/
  | streamerPlay
  /-- `streamer->pause()` -/
  | streamerPause
  /-- `streamer->stop()` -/
  | streamerStop
  /-- `streamer->setPosition(pos)` -/
  | streamerSetPosition (pos : Nat)
  /-- `streamer->setLocation(filename)` -/
  | streamerSetLocation (filename : String)
  /-- `emit playerPositionChanged()` -/
  | playerPositionChanged
  /-- `emit playing()` -/
  | playing
  /-- `emit paused()` -/
  | paused
  /-- `emit denied()` -/
  | denied
  deriving DecidableEq, Repr

/-- `struct data` of playerwidget.h:64-69 (`pos` is a `quint64`). -/
structure PlayerWidget.data where
  pos : Nat
  policyAware : Bool
  deriving DecidableEq, Repr

/-- The state of a `PlayerWidget` (playerwidget.h): its members `prevState`,
`streamer` and `d`, together with the trace of effects produced so far. -/
structure PlayerWidget (σ : Type) where
  prevState : Streamer.State
  streamer : σ
  d : PlayerWidget.data
  trace : List PlayerWidget.Effect

namespace PlayerWidget

variable {σ : Type}

/-- Append one effect to the trace. -/
def emit (e : Effect) (w : PlayerWidget σ) : PlayerWidget σ :=
  { w with trace := w.trace ++ [e] }

/-- Call a streamer member function: the streamer state changes and the call is traced. -/
def callStreamer (e : Effect) (f : σ → σ) (w : PlayerWidget σ) : PlayerWidget σ :=
  { w with streamer := f w.streamer, trace := w.trace ++ [e] }

/-- The members set by the constructor (playerwidget.cpp:52-79, playerwidget.h:68):
`d` is `pos(0), policyAware(true)`; `prevState` is left uninitialised by the source, so
it is an argument here. -/
def init (streamer : σ) (prevState : Streamer.State) : PlayerWidget σ :=
  { prevState := prevState, streamer := streamer, d := { pos := 0, policyAware := true },
    trace := [] }

/-- `PlayerWidget::acquire` (playerwidget.cpp:100-102). -/
def acquire (w : PlayerWidget σ) : PlayerWidget σ :=
  emit Effect.resourceSetAcquire w

/-- `PlayerWidget::release` (playerwidget.cpp:115-117). -/
def release (w : PlayerWidget σ) : PlayerWidget σ :=
  emit Effect.resourceSetRelease w

/-- `PlayerWidget::policyAware` (playerwidget.cpp:261-263). -/
def policyAware (w : PlayerWidget σ) : Bool :=
  w.d.policyAware

/-- `PlayerWidget::state` (playerwidget.cpp:313-315). -/
def state (S : StreamerOps σ) (w : PlayerWidget σ) : Streamer.State :=
  S.state w.streamer

/-- `PlayerWidget::length` (playerwidget.cpp:320-322). -/
def length (S : StreamerOps σ) (w : PlayerWidget σ) : Nat :=
  S.duration w.streamer

/-- `PlayerWidget::position` (playerwidget.cpp:282-284). -/
def position (w : PlayerWidget σ) : Nat :=
  w.d.pos

/-- `PlayerWidget::setPosition` (playerwidget.cpp:289-292). -/
def setPosition (pos : Nat) (w : PlayerWidget σ) : PlayerWidget σ :=
  emit Effect.playerPositionChanged { w with d := { w.d with pos := pos } }

/-- `PlayerWidget::seek` (playerwidget.cpp:297-300). -/
def seek (S : StreamerOps σ) (pos : Nat) (w : PlayerWidget σ) : PlayerWidget σ :=
  callStreamer (Effect.streamerSetPosition pos) (S.setPosition pos) (setPosition pos w)

/-- `PlayerWidget::open` (playerwidget.cpp:305-307). -/
def open_ (S : StreamerOps σ) (filename : String) (w : PlayerWidget σ) : PlayerWidget σ :=
  callStreamer (Effect.streamerSetLocation filename) (S.setLocation filename) w

/-- `PlayerWidget::beginPlayback` (playerwidget.cpp:137-141). -/
def beginPlayback (S : StreamerOps σ) (w : PlayerWidget σ) : PlayerWidget σ :=
  let w1 := callStreamer Effect.streamerPlay S.play w
  let w2 := seek S w1.d.pos w1
  emit Effect.playing w2

/-- `PlayerWidget::play` (playerwidget.cpp:123-129). -/
def play (S : StreamerOps σ) (w : PlayerWidget σ) : PlayerWidget σ :=
  if policyAware w then acquire w else beginPlayback S w

/-- `PlayerWidget::pause` (playerwidget.cpp:149-153); the header gives
`releaseResources` the default value `true`. -/
def pause (S : StreamerOps σ) (releaseResources : Bool) (w : PlayerWidget σ) :
    PlayerWidget σ :=
  let w1 := callStreamer Effect.streamerPause S.pause w
  let w2 := if releaseResources && policyAware w1 then release w1 else w1
  emit Effect.paused w2

/-- `PlayerWidget::stop` (playerwidget.cpp:159-164); the header gives
`releaseResources` the default value `true`. -/
def stop (S : StreamerOps σ) (releaseResources : Bool) (w : PlayerWidget σ) :
    PlayerWidget σ :=
  let w1 := callStreamer Effect.streamerStop S.stop w
  let w2 := if releaseResources && policyAware w1 then release w1 else w1
  let w3 := setPosition 0 w2
  emit Effect.paused w3

/-- `PlayerWidget::error` (playerwidget.cpp:81-85). -/
def error (S : StreamerOps σ) (w : PlayerWidget σ) : PlayerWidget σ :=
  pause S true w

/-- `PlayerWidget::eos` (playerwidget.cpp:87-91). -/
def eos (S : StreamerOps σ) (w : PlayerWidget σ) : PlayerWidget σ :=
  stop S true w

/-- `PlayerWidget::resourceAcquiredHandler` (playerwidget.cpp:175-178): the parameter is
unnamed in the source and the body does not read it. -/
def resourceAcquiredHandler (S : StreamerOps σ)
    (_grantedOptionalResList : List ResourcePolicy.ResourceType) (w : PlayerWidget σ) :
    PlayerWidget σ :=
  beginPlayback S w

/-- `PlayerWidget::resourceReleasedHandler` (playerwidget.cpp:186-188). -/
def resourceReleasedHandler (w : PlayerWidget σ) : PlayerWidget σ :=
  w

/-- `PlayerWidget::resourceReleasedByManagerHandler` (playerwidget.cpp:196-201). -/
def resourceReleasedByManagerHandler (S : StreamerOps σ) (w : PlayerWidget σ) :
    PlayerWidget σ :=
  if state S w = Streamer.State.PlayingState then pause S false w else w

/-- `PlayerWidget::resourcesDeniedHandler` (playerwidget.cpp:208-210). -/
def resourcesDeniedHandler (w : PlayerWidget σ) : PlayerWidget σ :=
  emit Effect.denied w

/-- `PlayerWidget::resourceLostHandler` (playerwidget.cpp:221-226). -/
def resourceLostHandler (S : StreamerOps σ) (w : PlayerWidget σ) : PlayerWidget σ :=
  if state S w = Streamer.State.PlayingState then pause S false w else w

/-- `PlayerWidget::timerEvent` (playerwidget.cpp:235-255); `d.pos += 100` is `quint64`
arithmetic. -/
def timerEvent (S : StreamerOps σ) (w : PlayerWidget σ) : PlayerWidget σ :=
  if length S w < w.d.pos ∧ state S w = Streamer.State.PlayingState then
    let w1 := stop S true w
    emit Effect.playerPositionChanged { w1 with d := { w1.d with pos := 0 } }
  else
    let w1 :=
      if state S w = Streamer.State.PlayingState then
        emit Effect.playerPositionChanged
          { w with d := { w.d with pos := (w.d.pos + 100) % 2 ^ 64 } }
      else w
    if state S w1 = Streamer.State.StoppedState ∧ w1.prevState ≠ state S w1 then
      let w2 := pause S true w1
      { w2 with prevState := state S w2 }
    else w1

/-- `PlayerWidget::setPolicyAware` (playerwidget.cpp:269-277). -/
def setPolicyAware (S : StreamerOps σ) (aware : Bool) (w : PlayerWidget σ) :
    PlayerWidget σ :=
  let w1 := { w with d := { w.d with policyAware := aware } }
  if policyAware w1 then
    if state S w1 = Streamer.State.PlayingState then acquire w1 else w1
  else release w1

end PlayerWidget

/-! ## The signal interface of `ResourceEngine` (`resource-engine.h`) -/

namespace ResourcePolicy

/-- The signals declared in the `signals:` section of `class ResourceEngine`
(resource-engine.h:46-52), one constructor per declaration, in source order. -/
inductive ResourceEngine.Signal
  | resourcesBecameAvailable
  | resourcesAcquired
  | resourcesDenied
  | lostResources
  | connectedToManager
  | disconnectedFromManager
  deriving DecidableEq, Repr

/-- The identifier of a declared signal, as written in the header. -/
def ResourceEngine.Signal.name : ResourceEngine.Signal → String
  | resourcesBecameAvailable => "resourcesBecameAvailable"
  | resourcesAcquired => "resourcesAcquired"
  | resourcesDenied => "resourcesDenied"
  | lostResources => "lostResources"
  | connectedToManager => "connectedToManager"
  | disconnectedFromManager => "disconnectedFromManager"

/-- All signals declared by `ResourceEngine` (resource-engine.h:47-52). -/
def ResourceEngine.signals : List ResourceEngine.Signal :=
  [ ResourceEngine.Signal.resourcesBecameAvailable,
    ResourceEngine.Signal.resourcesAcquired,
    ResourceEngine.Signal.resourcesDenied,
    ResourceEngine.Signal.lostResources,
    ResourceEngine.Signal.connectedToManager,
    ResourceEngine.Signal.disconnectedFromManager ]

/-- Whether `class ResourceEngine` declares a signal called `n`. -/
def ResourceEngine.declaresSignal (n : String) : Bool :=
  ResourceEngine.signals.any (fun s => s.name == n)

/-- The application-facing notification names of `ResourceSet`, following the words of
the specification (section 4.3): "notifications with the same names
(resourcesAcquired, resourcesDenied, lostResources, resourcesReleased,
resourcesReleasedByManager, connectedToManager, disconnectedFromManager)". -/
def ResourceSet.notificationNames : List String :=
  [ "resourcesAcquired", "resourcesDenied", "lostResources", "resourcesReleased",
    "resourcesReleasedByManager", "connectedToManager", "disconnectedFromManager" ]

/-! ## Resource, ResourceSet and the protocol engine

`resource-engine.cpp`, `resource-set.cpp` and `resource.cpp` are not among the sources
(only the engine's class declaration, a benchmark and the demo that call them are), so
the definitions of this section are modelled from the specification, sections 3, 4.2,
4.3 and 6.  Member names follow `resource-engine.h` where the declaration exists. -/

/-- Modelled from the spec: the `Resource` value type (section 3), whose class
definition is missing from the sources: a type, the optional flag, the attribute
mapping and the current grant state. -/
structure Resource where
  type : ResourceType
  optional : Bool
  attributes : List (String × String)
  granted : Bool
  deriving DecidableEq, Repr

/-- Modelled from the spec: the lifecycle states of section 4.2,
`Disconnected → Connecting → Connected ⇄ {Acquiring, Releasing}`; the state
declaration is missing from the sources. -/
inductive State
  | Disconnected
  | Connecting
  | Connected
  | Acquiring
  | Releasing
  deriving DecidableEq, Repr

/-- Modelled from the spec: the request kinds of section 6,
`kind ∈ {Register, Acquire, Release}` (the values of `resmsg_type_t` that
`messageMap` stores; `res-conn.h` is missing from the sources). -/
inductive RequestKind
  | Register
  | Acquire
  | Release
  deriving DecidableEq, Repr

/-- Modelled from the spec: the `outcome` argument of `onReply` (section 6).  The
positive outcome is the "success" reply of a registration and the "granted" reply of
an acquire; the type is missing from the sources. -/
inductive Outcome
  | granted
  | denied
  deriving DecidableEq, Repr

/-- Modelled from the spec: the lifecycle events the engine raises (sections 4.2 and
4.3); the implementation that emits them is missing from the sources. -/
inductive Event
  | resourcesAcquired (grantedSet : List ResourceType)
  | resourcesDenied
  | lostResources
  | resourcesReleased
  | resourcesReleasedByManager
  | connectedToManager
  | disconnectedFromManager
  deriving DecidableEq, Repr

/-- Modelled from the spec: the configuration flags of section 3,
`{AutoRelease, AlwaysReply}`, as an explicit record (section 9); the flag constants
behind `quint32 mode` are missing from the sources. -/
structure Mode where
  AutoRelease : Bool
  AlwaysReply : Bool
  deriving DecidableEq, Repr

/-- Modelled from the spec: an outbound request handed to the Transport,
`send(requestId, kind, payload)` of section 6, the payload being the application class
and the resource list; the wire message types are missing from the sources. -/
structure Message where
  requestId : Nat
  kind : RequestKind
  applicationClass : String
  resources : List Resource
  deriving DecidableEq, Repr

/-- Modelled from the spec: the `ResourceSet` record of section 3 (its class
definition, `policy/resource-set.h`, is missing from the sources): the application
class, the resources keyed by type, the lifecycle state and the identifier of the
in-flight request. -/
structure ResourceSet where
  applicationClass : String
  resources : List Resource
  state : State
  pendingRequestId : Option Nat
  deriving DecidableEq, Repr

/-- Modelled from the spec: the `ResourceEngine` record of section 3, with the member
names of resource-engine.h:55-62 (`resourceSet`, `requestId`, `messageMap`, `mode`);
the implementation file is missing from the sources.  `acquireQueued` is the queued
acquire intent of section 4.2, `sent` the requests handed to the Transport and
`events` the events raised so far, both in order. -/
structure ResourceEngine where
  resourceSet : ResourceSet
  requestId : Nat
  messageMap : List (Nat × RequestKind)
  mode : Mode
  acquireQueued : Bool
  sent : List Message
  events : List Event
  deriving DecidableEq, Repr

end ResourcePolicy

namespace ResourcePolicy

/-- Modelled from the spec: construction of a `ResourceSet` with an application class
(section 3, Lifecycle; the constructor is missing from the sources): no resources,
state Disconnected, no request in flight. -/
def ResourceSet.new (applicationClass : String) : ResourceSet :=
  { applicationClass := applicationClass, resources := [], state := State.Disconnected,
    pendingRequestId := none }

/-- Modelled from the spec: `ResourceSet::addResourceObject`, called at
playerwidget.cpp:67 and missing from the sources.  The resources are keyed by type
(section 3) and the last write wins on a duplicate type (section 8); resources may
only be added while the state is Disconnected, adding after connection is rejected
(section 3). -/
def ResourceSet.addResourceObject (s : ResourceSet) (r : Resource) : ResourceSet :=
  if s.state = State.Disconnected then
    { s with resources := s.resources.filter (fun x => decide (x.type ≠ r.type)) ++ [r] }
  else s

/-- Modelled from the spec: `addResource(type, attributes)` of section 4.3, called at
benchmark-resource-set.cpp:106 and missing from the sources: adds a fresh Resource of
the given type, not optional and not granted, bearing the given attributes. -/
def ResourceSet.addResource (s : ResourceSet) (type : ResourceType)
    (attributes : List (String × String)) : ResourceSet :=
  s.addResourceObject
    { type := type, optional := false, attributes := attributes, granted := false }

/-- Modelled from the spec: `removeResource(type)` of section 4.3 (only before
connect); missing from the sources. -/
def ResourceSet.removeResource (s : ResourceSet) (type : ResourceType) : ResourceSet :=
  if s.state = State.Disconnected then
    { s with resources := s.resources.filter (fun x => decide (x.type ≠ type)) }
  else s

namespace ResourceEngine

/-- Modelled from the spec: the constructor `ResourceEngine(ResourceSet *)`
(resource-engine.h:21, body missing from the sources): one engine per ResourceSet,
no request allocated or pending, no mode flag set, nothing sent or raised. -/
def new (resourceSet : ResourceSet) : ResourceEngine :=
  { resourceSet := resourceSet, requestId := 0, messageMap := [],
    mode := { AutoRelease := false, AlwaysReply := false }, acquireQueued := false,
    sent := [], events := [] }

/-- Modelled from the spec: raising an event to the owning ResourceSet (the `emit`
statements of the missing resource-engine.cpp). -/
def raise (e : ResourceEngine) (ev : Event) : ResourceEngine :=
  { e with events := e.events ++ [ev] }

/-- Modelled from the spec: the common part of `connect()`, `acquire()` and
`release()` in section 4.2, missing from the sources: "allocates a new requestId,
sends a ... message through Transport, ... records pendingRequestId", the request
being entered in `pendingRequests` (`messageMap`) under its kind. -/
def send (e : ResourceEngine) (kind : RequestKind) : ResourceEngine :=
  let rid := e.requestId + 1
  { e with
    requestId := rid
    messageMap := (rid, kind) :: e.messageMap
    sent := e.sent ++ [{ requestId := rid, kind := kind,
                         applicationClass := e.resourceSet.applicationClass,
                         resources := e.resourceSet.resources }]
    resourceSet := { e.resourceSet with pendingRequestId := some rid } }

/-- Modelled from the spec: abandoning the in-flight request (section 4.2, "the old
requestId is abandoned (its eventual reply, if any, is ignored)"; missing from the
sources): its entry leaves `messageMap`, so that a later reply bearing it is
unmatched. -/
def abandonPending (e : ResourceEngine) : ResourceEngine :=
  match e.resourceSet.pendingRequestId with
  | none => e
  | some rid =>
    { e with
      messageMap := e.messageMap.filter (fun p => decide (p.1 ≠ rid))
      resourceSet := { e.resourceSet with pendingRequestId := none } }

/-- Modelled from the spec: consumption of the pending entry `rid` on its matching
reply (section 3, "an entry is removed exactly once, on matching reply"; missing from
the sources); no request is in flight afterwards. -/
def consume (e : ResourceEngine) (rid : Nat) : ResourceEngine :=
  { e with
    messageMap := e.messageMap.filter (fun p => decide (p.1 ≠ rid))
    resourceSet := { e.resourceSet with pendingRequestId := none } }

/-- Modelled from the spec: moving the lifecycle state (section 4.2; missing from the
sources). -/
def setState (e : ResourceEngine) (s : State) : ResourceEngine :=
  { e with resourceSet := { e.resourceSet with state := s } }

/-- Modelled from the spec: "mark those Resources granted" (section 4.2; missing from
the sources): the Resources whose type is named become granted, the others keep their
flag. -/
def markGranted (e : ResourceEngine) (types : List ResourceType) : ResourceEngine :=
  { e with resourceSet := { e.resourceSet with
      resources := e.resourceSet.resources.map
        (fun r => if r.type ∈ types then { r with granted := true } else r) } }

/-- Modelled from the spec: "clear all granted flags" / "clear all grants" (section
4.2; missing from the sources). -/
def clearAllGranted (e : ResourceEngine) : ResourceEngine :=
  { e with resourceSet := { e.resourceSet with
      resources := e.resourceSet.resources.map (fun r => { r with granted := false }) } }

/-- Modelled from the spec: `connect()` of section 4.2 (`ResourceEngine::connect`,
resource-engine.h:26, body missing from the sources): only valid from Disconnected;
allocates a new requestId, sends the registration message, transitions to Connecting;
an idempotent no-op otherwise (section 3). -/
def connect (e : ResourceEngine) : ResourceEngine :=
  if e.resourceSet.state = State.Disconnected then
    setState (send e RequestKind.Register) State.Connecting
  else e

/-- Modelled from the spec: sending an acquire request (section 4.2; missing from the
sources): a request in flight is abandoned, a new requestId is allocated, the acquire
request listing all current Resources is sent, the state becomes Acquiring. -/
def issueAcquire (e : ResourceEngine) : ResourceEngine :=
  setState (send (abandonPending e) RequestKind.Acquire) State.Acquiring

/-- Modelled from the spec: sending a release request (section 4.2; missing from the
sources): an in-flight acquire is cancelled, a release request with a fresh requestId
is sent, the state becomes Releasing. -/
def issueRelease (e : ResourceEngine) : ResourceEngine :=
  setState (send (abandonPending e) RequestKind.Release) State.Releasing

/-- Modelled from the spec: `acquire()` of section 4.2
(`ResourceEngine::acquireResources`, resource-engine.h:30, body missing from the
sources): valid from Connected; while Acquiring the new call supersedes the old one;
before Connected the intent is queued until registration completes.  The spec gives
no transition from Releasing, where the call changes nothing. -/
def acquireResources (e : ResourceEngine) : ResourceEngine :=
  match e.resourceSet.state with
  | State.Connected | State.Acquiring => issueAcquire e
  | State.Disconnected | State.Connecting => { e with acquireQueued := true }
  | State.Releasing => e

/-- Modelled from the spec: `release()` of section 4.2
(`ResourceEngine::releaseResources`, resource-engine.h:31, body missing from the
sources): valid from Connected or Acquiring (cancelling the in-flight acquire); in
the other states the spec gives no transition and the call changes nothing. -/
def releaseResources (e : ResourceEngine) : ResourceEngine :=
  match e.resourceSet.state with
  | State.Connected | State.Acquiring => issueRelease e
  | State.Disconnected | State.Connecting | State.Releasing => e

/-- Modelled from the spec: completion of the registration (section 4.2, "→
Connected"; missing from the sources): the state becomes Connected,
`connectedToManager` is raised, and an acquire queued before Connected is issued now
("deferred until registration completes"). -/
def registrationCompleted (e : ResourceEngine) : ResourceEngine :=
  let e1 := raise (setState e State.Connected) Event.connectedToManager
  if e1.acquireQueued then issueAcquire { e1 with acquireQueued := false } else e1

/-- Modelled from the spec: the Transport callback `onConnected()` of section 6
(`ResourceEngine::handleConnectionIsUp`, resource-engine.h:36, body missing from the
sources).  In the end-to-end sequence of section 8 it is what takes a connecting set
to Connected, the acquire that follows being answered under its own requestId: the
registration in flight is complete and its pending entry is removed.  In any other
state it changes nothing. -/
def handleConnectionIsUp (e : ResourceEngine) : ResourceEngine :=
  if e.resourceSet.state = State.Connecting then
    registrationCompleted (abandonPending e)
  else e

/-- Modelled from the spec: the Transport callback `onDisconnected()` of section 6
(`ResourceEngine::disconnected`, resource-engine.h:38, body missing from the sources):
"discard all pendingRequests, clear all grants, force state to Disconnected, emit
disconnectedFromManager". -/
def disconnected (e : ResourceEngine) : ResourceEngine :=
  let e1 := clearAllGranted { e with messageMap := [] }
  let e2 := { e1 with resourceSet := { e1.resourceSet with pendingRequestId := none } }
  raise (setState e2 State.Disconnected) Event.disconnectedFromManager

/-- Modelled from the spec: the Transport callback
`onReply(requestId, outcome, grantedResourceTypes)` of section 6
(`ResourceEngine::handleStatusMessage` / `receivedGrant`, resource-engine.h:39-42,
bodies missing from the sources).  Replies are matched strictly by requestId; one
whose requestId is not in `messageMap` is ignored.  A matched reply is interpreted by
the kind of the request it answers (section 4.2):
* registration, success: Connected;
* acquire, granted with a non-empty list: mark those Resources granted, Connected,
  `resourcesAcquired(grantedSet)`;
* acquire, denied: Connected, `resourcesDenied`, no Resource is marked;
* release: clear all granted flags, Connected, `resourcesReleased`.
The two replies the spec gives no transition for (a registration answered "denied",
an acquire answered "granted" with no resource type) are malformed and ignored
(section 7, ProtocolError). -/
def onReply (e : ResourceEngine) (requestId : Nat) (outcome : Outcome)
    (grantedResourceTypes : List ResourceType) : ResourceEngine :=
  match e.messageMap.lookup requestId with
  | none => e
  | some RequestKind.Register =>
    match outcome with
    | Outcome.granted => registrationCompleted (consume e requestId)
    | Outcome.denied => e
  | some RequestKind.Acquire =>
    match outcome with
    | Outcome.granted =>
      if grantedResourceTypes = [] then e
      else
        raise (setState (markGranted (consume e requestId) grantedResourceTypes)
          State.Connected) (Event.resourcesAcquired grantedResourceTypes)
    | Outcome.denied =>
      raise (setState (consume e requestId) State.Connected) Event.resourcesDenied
  | some RequestKind.Release =>
    raise (setState (clearAllGranted (consume e requestId)) State.Connected)
      Event.resourcesReleased

/-- The resource set of the end-to-end scenario of section 8 and of
`BenchmarkResourceSet::benchmarkAcquireSend` (benchmark-resource-set.cpp:105-106):
application class "player", one AudioPlayback resource. -/
def playerSet : ResourceSet :=
  (ResourceSet.new "player").addResource ResourceType.AudioPlaybackType []

/-- The section 8 scenario up to the acquire: `connect()`, `onConnected`,
`acquire()` on the engine of `playerSet`. -/
def playerAcquiring : ResourceEngine :=
  acquireResources (handleConnectionIsUp (connect (new playerSet)))

/-- The section 8 scenario after the grant: `playerAcquiring` followed by
`onReply(rid, granted, [AudioPlayback])`, `rid` being the request in flight. -/
def playerGranted : ResourceEngine :=
  onReply playerAcquiring 2 Outcome.granted [ResourceType.AudioPlaybackType]

end ResourceEngine

end ResourcePolicy

/-! ## Properties of the demo player -/

namespace PlayerWidget

variable {σ : Type}

/-- The trace and streamer state after `beginPlayback`: the streamer is started, the
player seeks to the stored position (announcing it) and `playing()` is emitted. -/
theorem beginPlayback_effects (S : StreamerOps σ) (w : PlayerWidget σ) :
    (beginPlayback S w).trace =
        w.trace ++ [Effect.streamerPlay, Effect.playerPositionChanged,
          Effect.streamerSetPosition w.d.pos, Effect.playing] ∧
      (beginPlayback S w).streamer = S.setPosition w.d.pos (S.play w.streamer) ∧
      (beginPlayback S w).d = w.d ∧
      (beginPlayback S w).prevState = w.prevState := by
  simp [beginPlayback, seek, setPosition, callStreamer, emit]

/-- The trace and streamer state after `pause(false)`. -/
theorem pause_false_effects (S : StreamerOps σ) (w : PlayerWidget σ) :
    (pause S false w).trace = w.trace ++ [Effect.streamerPause, Effect.paused] ∧
      (pause S false w).streamer = S.pause w.streamer ∧
      (pause S false w).d = w.d ∧
      (pause S false w).prevState = w.prevState := by
  simp [pause, callStreamer, emit]

/-- C7: for every player state, `play()` with `policyAware` true issues exactly one
acquire on the resource set and nothing else (the streamer is not started, `playing()`
is not emitted); with `policyAware` false it issues no acquire and at once starts the
streamer, seeks to the stored position `d.pos` and emits `playing()`. -/
theorem play_acquires_or_begins_playback (S : StreamerOps σ) (w : PlayerWidget σ) :
    (w.d.policyAware = true →
      (play S w).trace = w.trace ++ [Effect.resourceSetAcquire] ∧
      (play S w).streamer = w.streamer ∧
      (play S w).d = w.d) ∧
    (w.d.policyAware = false →
      (play S w).trace =
        w.trace ++ [Effect.streamerPlay, Effect.playerPositionChanged,
          Effect.streamerSetPosition w.d.pos, Effect.playing] ∧
      (play S w).streamer = S.setPosition w.d.pos (S.play w.streamer) ∧
      (play S w).d = w.d) := by
  constructor
  · intro h
    simp [play, policyAware, h, acquire, emit]
  · intro h
    have hb := beginPlayback_effects S w
    simp only [play, policyAware, h]
    exact ⟨hb.1, hb.2.1, hb.2.2.1⟩

/-- C7 at concrete inputs: a freshly constructed (policy-aware) player, and the same
player with `policyAware` false and stored position 5. -/
theorem play_acquires_or_begins_playback_witness :
    (play Streamer.simple
        (init Streamer.State.StoppedState Streamer.State.StoppedState)).trace =
      [Effect.resourceSetAcquire] ∧
    (play Streamer.simple
        { prevState := Streamer.State.StoppedState, streamer := Streamer.State.StoppedState,
          d := { pos := 5, policyAware := false }, trace := [] }).trace =
      [Effect.streamerPlay, Effect.playerPositionChanged, Effect.streamerSetPosition 5,
        Effect.playing] :=
  ⟨((play_acquires_or_begins_playback Streamer.simple
      (init Streamer.State.StoppedState Streamer.State.StoppedState)).1 rfl).1,
   ((play_acquires_or_begins_playback Streamer.simple
      { prevState := Streamer.State.StoppedState, streamer := Streamer.State.StoppedState,
        d := { pos := 5, policyAware := false }, trace := [] }).2 rfl).1⟩

/-- C8: for every player state and both values of `releaseResources`, `pause` and
`stop` issue a release on the resource set exactly once when `releaseResources` is
true and the player is policy-aware and issue none otherwise, and in every case emit
`paused()` (once, as the last effect). -/
theorem pause_stop_release_iff (S : StreamerOps σ) (releaseResources : Bool)
    (w : PlayerWidget σ) :
    ((pause S releaseResources w).trace =
        w.trace ++ ([Effect.streamerPause] ++
          (if releaseResources && w.d.policyAware then [Effect.resourceSetRelease] else []) ++
          [Effect.paused]) ∧
      (stop S releaseResources w).trace =
        w.trace ++ ([Effect.streamerStop] ++
          (if releaseResources && w.d.policyAware then [Effect.resourceSetRelease] else []) ++
          [Effect.playerPositionChanged, Effect.paused])) ∧
    ((pause S releaseResources w).trace.count Effect.resourceSetRelease =
        w.trace.count Effect.resourceSetRelease +
          (if releaseResources && w.d.policyAware then 1 else 0) ∧
      (stop S releaseResources w).trace.count Effect.resourceSetRelease =
        w.trace.count Effect.resourceSetRelease +
          (if releaseResources && w.d.policyAware then 1 else 0)) ∧
    ((pause S releaseResources w).trace.count Effect.paused =
        w.trace.count Effect.paused + 1 ∧
      (stop S releaseResources w).trace.count Effect.paused =
        w.trace.count Effect.paused + 1) := by
  have hp : (pause S releaseResources w).trace =
      w.trace ++ ([Effect.streamerPause] ++
        (if releaseResources && w.d.policyAware then [Effect.resourceSetRelease] else []) ++
        [Effect.paused]) := by
    cases releaseResources <;> cases h : w.d.policyAware <;>
      simp [pause, policyAware, release, callStreamer, emit, h]
  have hs : (stop S releaseResources w).trace =
      w.trace ++ ([Effect.streamerStop] ++
        (if releaseResources && w.d.policyAware then [Effect.resourceSetRelease] else []) ++
        [Effect.playerPositionChanged, Effect.paused]) := by
    cases releaseResources <;> cases h : w.d.policyAware <;>
      simp [stop, policyAware, release, setPosition, callStreamer, emit, h]
  refine ⟨⟨hp, hs⟩, ⟨?_, ?_⟩, ⟨?_, ?_⟩⟩
  · rw [hp]; cases releaseResources <;> cases w.d.policyAware <;> simp
  · rw [hs]; cases releaseResources <;> cases w.d.policyAware <;> simp
  · rw [hp]; cases releaseResources <;> cases w.d.policyAware <;> simp
  · rw [hs]; cases releaseResources <;> cases w.d.policyAware <;> simp

/-- C9: for every player state, the handlers of `lostResources` and
`resourcesReleasedByManager` never issue a release on the resource set; when the
streamer state is `PlayingState` they pause the streamer and emit `paused()` (and do
nothing else), and otherwise they change nothing. -/
theorem lost_handlers_pause_iff_playing (S : StreamerOps σ) (w : PlayerWidget σ) :
    ((resourceLostHandler S w).trace.count Effect.resourceSetRelease =
        w.trace.count Effect.resourceSetRelease ∧
      (resourceReleasedByManagerHandler S w).trace.count Effect.resourceSetRelease =
        w.trace.count Effect.resourceSetRelease) ∧
    (S.state w.streamer = Streamer.State.PlayingState →
      ((resourceLostHandler S w).trace =
          w.trace ++ [Effect.streamerPause, Effect.paused] ∧
        (resourceLostHandler S w).streamer = S.pause w.streamer ∧
        (resourceLostHandler S w).d = w.d ∧
        (resourceLostHandler S w).prevState = w.prevState) ∧
      ((resourceReleasedByManagerHandler S w).trace =
          w.trace ++ [Effect.streamerPause, Effect.paused] ∧
        (resourceReleasedByManagerHandler S w).streamer = S.pause w.streamer ∧
        (resourceReleasedByManagerHandler S w).d = w.d ∧
        (resourceReleasedByManagerHandler S w).prevState = w.prevState)) ∧
    (S.state w.streamer ≠ Streamer.State.PlayingState →
      resourceLostHandler S w = w ∧ resourceReleasedByManagerHandler S w = w) := by
  have hp := pause_false_effects S w
  refine ⟨?_, ?_, ?_⟩
  · by_cases h : S.state w.streamer = Streamer.State.PlayingState
    · simp [resourceLostHandler, resourceReleasedByManagerHandler, state, h, hp.1]
    · simp [resourceLostHandler, resourceReleasedByManagerHandler, state, h]
  · intro h
    simp only [resourceLostHandler, resourceReleasedByManagerHandler, state, h, if_true]
    exact ⟨hp, hp⟩
  · intro h
    simp [resourceLostHandler, resourceReleasedByManagerHandler, state, h]

/-- C9 at concrete inputs: a playing player is paused without a release, a stopped
player is left as it is. -/
theorem lost_handlers_pause_iff_playing_witness :
    (resourceLostHandler Streamer.simple
        (init Streamer.State.PlayingState Streamer.State.StoppedState)).trace =
      [Effect.streamerPause, Effect.paused] ∧
    resourceReleasedByManagerHandler Streamer.simple
        (init Streamer.State.StoppedState Streamer.State.StoppedState) =
      init Streamer.State.StoppedState Streamer.State.StoppedState :=
  ⟨((lost_handlers_pause_iff_playing Streamer.simple
      (init Streamer.State.PlayingState Streamer.State.StoppedState)).2.1 rfl).1.1,
   ((lost_handlers_pause_iff_playing Streamer.simple
      (init Streamer.State.StoppedState Streamer.State.StoppedState)).2.2
        (by decide)).2⟩

/-- C10, refuted as stated: on a freshly constructed player, `resourceAcquiredHandler`
called with the empty granted list begins playback: the streamer is started, the
player seeks to the stored position 0 and `playing()` is emitted. -/
theorem resourceAcquiredHandler_empty_list_begins_playback :
    (resourceAcquiredHandler Streamer.simple []
        (init Streamer.State.StoppedState Streamer.State.StoppedState)).trace =
      [Effect.streamerPlay, Effect.playerPositionChanged, Effect.streamerSetPosition 0,
        Effect.playing] ∧
    (resourceAcquiredHandler Streamer.simple []
        (init Streamer.State.StoppedState Streamer.State.StoppedState)).streamer =
      Streamer.State.PlayingState := by
  decide

/-- C10, amended: `resourceAcquiredHandler` begins playback for every granted list,
empty or not: it starts the streamer, seeks to the stored position `d.pos` and emits
`playing()`, and does nothing else; it does not read the list. -/
theorem resourceAcquiredHandler_begins_playback_for_every_list (S : StreamerOps σ)
    (granted : List ResourcePolicy.ResourceType) (w : PlayerWidget σ) :
    (resourceAcquiredHandler S granted w).trace =
        w.trace ++ [Effect.streamerPlay, Effect.playerPositionChanged,
          Effect.streamerSetPosition w.d.pos, Effect.playing] ∧
      (resourceAcquiredHandler S granted w).streamer =
        S.setPosition w.d.pos (S.play w.streamer) ∧
      (resourceAcquiredHandler S granted w).d = w.d ∧
      (resourceAcquiredHandler S granted w).prevState = w.prevState ∧
      resourceAcquiredHandler S granted w = resourceAcquiredHandler S [] w :=
  ⟨(beginPlayback_effects S w).1, (beginPlayback_effects S w).2.1,
    (beginPlayback_effects S w).2.2.1, (beginPlayback_effects S w).2.2.2, rfl⟩

end PlayerWidget

/-! ## The signals of `ResourceEngine` against the notifications of `ResourceSet` -/

namespace ResourcePolicy

/-- C6, refuted as stated: `resourcesReleased` is one of the seven application-facing
notification names, and `class ResourceEngine` declares no signal of that name. -/
theorem resourcesReleased_not_declared_by_engine :
    "resourcesReleased" ∈ ResourceSet.notificationNames ∧
      ResourceEngine.declaresSignal "resourcesReleased" = false := by
  decide

/-- C6, amended: of the seven application-facing notification names, exactly
`resourcesAcquired`, `resourcesDenied`, `lostResources`, `connectedToManager` and
`disconnectedFromManager` are names of signals declared by `ResourceEngine`;
`resourcesReleased` and `resourcesReleasedByManager` are not. -/
theorem engine_declares_five_of_seven_notifications :
    ResourceSet.notificationNames.filter ResourceEngine.declaresSignal =
        [ "resourcesAcquired", "resourcesDenied", "lostResources", "connectedToManager",
          "disconnectedFromManager" ] ∧
      ResourceSet.notificationNames.filter (fun n => !ResourceEngine.declaresSignal n) =
        [ "resourcesReleased", "resourcesReleasedByManager" ] := by
  decide

/-! ## Properties of the protocol engine -/

namespace ResourceEngine

/-- C1: for every engine state and every reply whose requestId is not a key of
`messageMap`, handling the reply leaves the connection state, the pending-request map
and every Resource (hence every granted flag) unchanged and raises no event; indeed
the whole engine is unchanged. -/
theorem onReply_unknown_requestId_ignored (e : ResourceEngine) (requestId : Nat)
    (outcome : Outcome) (grantedResourceTypes : List ResourceType)
    (h : requestId ∉ e.messageMap.map Prod.fst) :
    (onReply e requestId outcome grantedResourceTypes).resourceSet.state =
        e.resourceSet.state ∧
      (onReply e requestId outcome grantedResourceTypes).messageMap = e.messageMap ∧
      (onReply e requestId outcome grantedResourceTypes).resourceSet.resources =
        e.resourceSet.resources ∧
      (onReply e requestId outcome grantedResourceTypes).events = e.events ∧
      onReply e requestId outcome grantedResourceTypes = e := by
  have hl : e.messageMap.lookup requestId = none := by
    rw [List.lookup_eq_none_iff]
    intro p hp
    have hne : requestId ≠ p.1 := fun heq =>
      h (List.mem_map.mpr ⟨p, hp, heq.symm⟩)
    simpa using hne
  have he : onReply e requestId outcome grantedResourceTypes = e := by
    simp [onReply, hl]
  rw [he]
  exact ⟨rfl, rfl, rfl, rfl, rfl⟩

/-- C1 at a concrete input: the granted player of the section 8 scenario, whose
request 2 has been consumed, ignores a duplicate of the reply to request 2. -/
theorem onReply_unknown_requestId_ignored_witness :
    2 ∉ playerGranted.messageMap.map Prod.fst ∧
      onReply playerGranted 2 Outcome.denied [] = playerGranted :=
  ⟨by decide,
   (onReply_unknown_requestId_ignored playerGranted 2 Outcome.denied [] (by decide)).2.2.2.2⟩

/-- C2: for every engine state, handling a transport connection-down event results in
a state that is Disconnected, has no pending request, has no Resource marked granted
(the Resources being otherwise the same), and raises `disconnectedFromManager`,
once. -/
theorem disconnected_clears_everything (e : ResourceEngine) :
    (disconnected e).resourceSet.state = State.Disconnected ∧
      (disconnected e).messageMap = [] ∧
      (disconnected e).resourceSet.pendingRequestId = none ∧
      (∀ r ∈ (disconnected e).resourceSet.resources, r.granted = false) ∧
      (disconnected e).resourceSet.resources.map (fun r => r.type) =
        e.resourceSet.resources.map (fun r => r.type) ∧
      (disconnected e).events = e.events ++ [Event.disconnectedFromManager] := by
  refine ⟨rfl, rfl, rfl, ?_, ?_, rfl⟩
  · intro r hr
    simp only [disconnected, raise, setState, clearAllGranted, List.mem_map] at hr
    obtain ⟨r0, _, rfl⟩ := hr
    rfl
  · simp [disconnected, raise, setState, clearAllGranted, Function.comp_def]

end ResourceEngine

end ResourcePolicy

namespace ResourcePolicy

namespace ResourceEngine

/-- The engine after a matched "granted" reply to an acquire request naming a
non-empty list of resource types. -/
theorem onReply_acquire_granted (e : ResourceEngine) (rid : Nat) (S : List ResourceType)
    (hpending : e.messageMap.lookup rid = some RequestKind.Acquire) (hne : S ≠ []) :
    onReply e rid Outcome.granted S =
      raise (setState (markGranted (consume e rid) S) State.Connected)
        (Event.resourcesAcquired S) := by
  simp [onReply, hpending, hne]

/-- C3: for every engine whose set is connected with an acquire request in flight
under id `rid`, a reply for `rid` with outcome granted naming a non-empty subset `S` of
the set's resource types marks exactly the Resources of `S` as granted (every type of
`S` has its Resource granted, every Resource of `S` is granted, every other Resource is
as it was, so that after a fresh acquire the granted Resources are those of `S`),
returns the state to Connected and raises `resourcesAcquired(S)` once; in particular
the set of class "player" with one AudioPlayback resource, taken through connect,
onConnected, acquire and the granted reply to the request in flight, ends Connected
with AudioPlayback granted and `resourcesAcquired([AudioPlayback])` raised. -/
theorem onReply_granted_marks_and_acquires (e : ResourceEngine) (rid : Nat)
    (S : List ResourceType)
    (_hstate : e.resourceSet.state = State.Acquiring)
    (hpending : e.messageMap.lookup rid = some RequestKind.Acquire)
    (hne : S ≠ [])
    (hsub : ∀ t ∈ S, t ∈ e.resourceSet.resources.map (fun r => r.type)) :
    ((onReply e rid Outcome.granted S).resourceSet.resources.map (fun r => r.type) =
        e.resourceSet.resources.map (fun r => r.type) ∧
      (∀ t ∈ S, ∃ r ∈ (onReply e rid Outcome.granted S).resourceSet.resources,
        r.type = t ∧ r.granted = true) ∧
      (∀ r ∈ (onReply e rid Outcome.granted S).resourceSet.resources,
        r.type ∈ S → r.granted = true) ∧
      (∀ r ∈ (onReply e rid Outcome.granted S).resourceSet.resources,
        r.type ∉ S → r ∈ e.resourceSet.resources) ∧
      ((∀ r ∈ e.resourceSet.resources, r.granted = false) →
        ∀ r ∈ (onReply e rid Outcome.granted S).resourceSet.resources,
          (r.granted = true ↔ r.type ∈ S)) ∧
      (onReply e rid Outcome.granted S).resourceSet.state = State.Connected ∧
      (onReply e rid Outcome.granted S).events = e.events ++ [Event.resourcesAcquired S]) ∧
    (playerAcquiring.resourceSet.state = State.Acquiring ∧
      playerAcquiring.resourceSet.pendingRequestId = some 2 ∧
      playerGranted.resourceSet.resources =
        [{ type := ResourceType.AudioPlaybackType, optional := false, attributes := [],
           granted := true }] ∧
      playerGranted.resourceSet.state = State.Connected ∧
      playerGranted.events =
        [Event.connectedToManager,
         Event.resourcesAcquired [ResourceType.AudioPlaybackType]]) := by
  have hres : (onReply e rid Outcome.granted S).resourceSet.resources =
      e.resourceSet.resources.map
        (fun r => if r.type ∈ S then { r with granted := true } else r) := by
    rw [onReply_acquire_granted e rid S hpending hne]
    rfl
  have hmem : ∀ r, r ∈ (onReply e rid Outcome.granted S).resourceSet.resources ↔
      ∃ r0 ∈ e.resourceSet.resources,
        (if r0.type ∈ S then { r0 with granted := true } else r0) = r := by
    intro r
    rw [hres, List.mem_map]
  refine ⟨⟨?_, ?_, ?_, ?_, ?_, ?_, ?_⟩, by decide⟩
  · rw [hres, List.map_map]
    apply List.map_congr_left
    intro r _
    by_cases h : r.type ∈ S <;> simp [h]
  · intro t ht
    obtain ⟨r0, hr0, hty⟩ := List.mem_map.mp (hsub t ht)
    have h0 : r0.type ∈ S := by rw [hty]; exact ht
    exact ⟨{ r0 with granted := true }, (hmem _).mpr ⟨r0, hr0, by simp [h0]⟩, hty, rfl⟩
  · intro r hr hin
    obtain ⟨r0, _, rfl⟩ := (hmem r).mp hr
    by_cases h : r0.type ∈ S
    · simp [h]
    · simp [h] at hin
  · intro r hr hnot
    obtain ⟨r0, hr0, rfl⟩ := (hmem r).mp hr
    by_cases h : r0.type ∈ S
    · simp [h] at hnot
    · simpa [h] using hr0
  · intro hall r hr
    obtain ⟨r0, hr0, rfl⟩ := (hmem r).mp hr
    by_cases h : r0.type ∈ S
    · simp [h]
    · simp [h, hall r0 hr0]
  · rw [onReply_acquire_granted e rid S hpending hne]
    rfl
  · rw [onReply_acquire_granted e rid S hpending hne]
    rfl

/-- C3 at a concrete input: the section 8 scenario itself, the reply being handled by
the engine obtained from connect, onConnected and acquire. -/
theorem onReply_granted_marks_and_acquires_witness :
    playerAcquiring.messageMap.lookup 2 = some RequestKind.Acquire ∧
      (∀ r ∈ playerGranted.resourceSet.resources,
        r.type ∈ [ResourceType.AudioPlaybackType] → r.granted = true) ∧
      playerGranted.events =
        playerAcquiring.events ++
          [Event.resourcesAcquired [ResourceType.AudioPlaybackType]] :=
  ⟨by decide,
   (onReply_granted_marks_and_acquires playerAcquiring 2 [ResourceType.AudioPlaybackType]
      (by decide) (by decide) (by decide) (by decide)).1.2.2.1,
   (onReply_granted_marks_and_acquires playerAcquiring 2 [ResourceType.AudioPlaybackType]
      (by decide) (by decide) (by decide) (by decide)).1.2.2.2.2.2.2⟩

end ResourceEngine

end ResourcePolicy

/-! ## Properties of the resource set -/

namespace ResourcePolicy

namespace ResourceSet

/-- Adding a resource never changes the lifecycle state. -/
theorem addResource_state (s : ResourceSet) (t : ResourceType)
    (a : List (String × String)) : (s.addResource t a).state = s.state := by
  unfold addResource addResourceObject
  split <;> rfl

/-- The entries of a given type after one `addResource` on a set that is not yet
connected: the new Resource if the types agree, the former entries otherwise. -/
theorem addResource_filter (s : ResourceSet) (hs : s.state = State.Disconnected)
    (t0 : ResourceType) (a : List (String × String)) (t : ResourceType) :
    (s.addResource t0 a).resources.filter (fun r => decide (r.type = t)) =
      if t0 = t then
        [{ type := t0, optional := false, attributes := a, granted := false }]
      else s.resources.filter (fun r => decide (r.type = t)) := by
  simp only [addResource, addResourceObject, hs, if_true, List.filter_append,
    List.filter_filter]
  by_cases h : t0 = t
  · subst h
    simp
  · simp only [h, if_false]
    have h1 : (List.filter (fun r : Resource => decide (r.type = t))
        [{ type := t0, optional := false, attributes := a, granted := false }]) = [] := by
      simp [h]
    rw [h1, List.append_nil]
    apply List.filter_congr
    intro r _
    by_cases hr : r.type = t
    · have : ¬ t = t0 := fun h2 => h h2.symm
      simp [hr, this]
    · simp [hr]

/-- The set built by a sequence of `addResource` calls on a set that is not yet
connected is not connected either, and its entries of a given type are the Resource of
the last call for that type, or the former entries if there is no such call. -/
theorem foldl_addResource_filter (calls : List (ResourceType × List (String × String)))
    (s : ResourceSet) (hs : s.state = State.Disconnected) (t : ResourceType) :
    (calls.foldl (fun s c => s.addResource c.1 c.2) s).state = State.Disconnected ∧
      (calls.foldl (fun s c => s.addResource c.1 c.2) s).resources.filter
          (fun r => decide (r.type = t)) =
        match (calls.filter (fun c => decide (c.1 = t))).getLast? with
        | some c => [{ type := t, optional := false, attributes := c.2, granted := false }]
        | none => s.resources.filter (fun r => decide (r.type = t)) := by
  induction calls using List.reverseRecOn with
  | nil => exact ⟨hs, rfl⟩
  | append_singleton cs c ih =>
    obtain ⟨ihs, ihf⟩ := ih
    rw [List.foldl_append, List.foldl_cons, List.foldl_nil]
    refine ⟨by rw [addResource_state]; exact ihs, ?_⟩
    rw [addResource_filter _ ihs, List.filter_append]
    by_cases h : c.1 = t
    · simp [h]
    · simp only [h, if_false, ihf]
      have h1 : List.filter (fun c : ResourceType × List (String × String) =>
          decide (c.1 = t)) [c] = [] := by simp [h]
      rw [h1, List.append_nil]

/-- C5: for every finite sequence of `addResource` calls made on a freshly constructed
ResourceSet (hence before connect), the resulting set holds, for every type, exactly
one Resource if the type occurs in the sequence and none otherwise, and the Resource
held for a type is the one given by the last call for that type. -/
theorem addResource_sequence_one_entry_per_type (applicationClass : String)
    (calls : List (ResourceType × List (String × String))) (t : ResourceType) :
    ((calls.foldl (fun s c => s.addResource c.1 c.2)
          (ResourceSet.new applicationClass)).resources.filter
        (fun r => decide (r.type = t))).length =
        (if t ∈ calls.map Prod.fst then 1 else 0) ∧
      (calls.foldl (fun s c => s.addResource c.1 c.2)
          (ResourceSet.new applicationClass)).resources.filter
        (fun r => decide (r.type = t)) =
        ((calls.filter (fun c => decide (c.1 = t))).getLast?.map
          (fun c => ({ type := t, optional := false, attributes := c.2,
                       granted := false } : Resource))).toList := by
  have hf := (foldl_addResource_filter calls (ResourceSet.new applicationClass) rfl t).2
  have hnone : (calls.filter (fun c => decide (c.1 = t))).getLast? = none ↔
      t ∉ calls.map Prod.fst := by
    rw [List.getLast?_eq_none_iff, List.filter_eq_nil_iff]
    constructor
    · intro h hmem
      obtain ⟨c, hc, hct⟩ := List.mem_map.mp hmem
      exact absurd hct (by simpa using h c hc)
    · intro h c hc
      have : c.1 ≠ t := fun hct => h (List.mem_map.mpr ⟨c, hc, hct⟩)
      simpa using this
  rw [hf]
  cases hl : (calls.filter (fun c => decide (c.1 = t))).getLast? with
  | none =>
    have hnot := hnone.mp hl
    simp [ResourceSet.new, hnot]
  | some c =>
    have hin : t ∈ calls.map Prod.fst := by
      by_contra hnot
      rw [hnone.mpr hnot] at hl
      cases hl
    simp [hin]

end ResourceSet

end ResourcePolicy
